import Mathlib

/-!
# Verification of the schedule bot core (`bot.py`)

A shallow embedding of the core logic of `bot.py`:

* a Gregorian/ISO-8601 calendar layer modelling Python's
  `datetime.date.isocalendar()` and `datetime.date.isoweekday()`;
* the data model of the upstream JSON schedule document;
* `get_week_type`, `format_day_schedule`, `get_schedule_for_date` and
  `get_schedule_data`, translated line by line from the source;
* theorems settling the specification's claims about these functions.

Dates are triples of naturals.  Python `datetime` objects are only ever
built from real calendar dates, so theorems that need calendar facts
carry a `Date.Valid` hypothesis.
-/

/-- A calendar date, as the (year, month, day) triple carried by a Python
`datetime.date`. -/
structure Date where
  year : Nat
  month : Nat
  day : Nat
deriving DecidableEq, Repr

/-- Gregorian leap-year test, as used by Python's `datetime` module. -/
def isLeap (y : Nat) : Bool :=
  y % 4 == 0 && (y % 100 != 0 || y % 400 == 0)

/-- Lengths of the twelve months. -/
def monthLengths (leap : Bool) : List Nat :=
  [31, if leap then 29 else 28, 31, 30, 31, 30, 31, 31, 30, 31, 30, 31]

/-- Number of days in month `m` of year `y` (0 for an out-of-range month). -/
def daysInMonth (y m : Nat) : Nat :=
  (monthLengths (isLeap y)).getD (m - 1) 0

/-- Day-of-year of the date `(y, m, d)`: `1` for January 1st. -/
def dayOfYear (y m d : Nat) : Nat :=
  ((monthLengths (isLeap y)).take (m - 1)).sum + d

/-- Number of days in the years `1 .. y-1`, i.e. the proleptic-Gregorian day
count strictly before January 1st of year `y`.  This is `date.toordinal() - 1`
of Jan 1st of year `y` in Python. -/
def daysBeforeYear (y : Nat) : Nat :=
  let p := y - 1
  365 * p + p / 4 + p / 400 - p / 100

/-- The rata-die day number of a date: day 1 is 0001-01-01 (a Monday).
Models Python's `date.toordinal()`. -/
def rataDie (dt : Date) : Nat :=
  daysBeforeYear dt.year + dayOfYear dt.year dt.month dt.day

/-- ISO weekday (Monday = 1 .. Sunday = 7) of a rata-die day number. -/
def isoWeekdayN (rd : Nat) : Nat :=
  (rd - 1) % 7 + 1

/-- ISO weekday of a date; models Python's `date.isoweekday()`. -/
def isoWeekday (dt : Date) : Nat :=
  isoWeekdayN (rataDie dt)

/-- Rata-die day number of the Monday starting ISO week 1 of year `y`:
the Monday of the week containing January 4th.  Models CPython's
`_isoweek1monday`. -/
def week1Monday (y : Nat) : Nat :=
  rataDie ⟨y, 1, 4⟩ - (rataDie ⟨y, 1, 4⟩ - 1) % 7

/-- The ISO week-numbering year a date belongs to; models
`date.isocalendar()[0]`. -/
def isoYearOf (dt : Date) : Nat :=
  if rataDie dt < week1Monday dt.year then dt.year - 1
  else if week1Monday (dt.year + 1) ≤ rataDie dt then dt.year + 1
  else dt.year

/-- The ISO week number of a date (1..53); models `date.isocalendar()[1]`. -/
def isoWeekNumber (dt : Date) : Nat :=
  (rataDie dt - week1Monday (isoYearOf dt)) / 7 + 1

/-- A date whose fields form a real calendar date.  Years `≥ 2` keep the
previous ISO year meaningful. -/
def Date.Valid (dt : Date) : Prop :=
  2 ≤ dt.year ∧ 1 ≤ dt.month ∧ dt.month ≤ 12 ∧ 1 ≤ dt.day ∧
    dt.day ≤ daysInMonth dt.year dt.month

instance (dt : Date) : Decidable dt.Valid := by
  unfold Date.Valid; infer_instance

/-! Sanity anchors for the calendar layer, matching CPython's
`datetime.date` on known dates. -/

example : isoWeekdayN (rataDie ⟨1970, 1, 1⟩) = 4 := by decide
example : isoWeekdayN (rataDie ⟨2000, 1, 1⟩) = 6 := by decide
example : isoWeekday ⟨2024, 12, 30⟩ = 1 := by decide
example : isoWeekNumber ⟨2021, 1, 1⟩ = 53 ∧ isoYearOf ⟨2021, 1, 1⟩ = 2020 := by decide
example : isoWeekNumber ⟨2016, 1, 1⟩ = 53 ∧ isoYearOf ⟨2016, 1, 1⟩ = 2015 := by decide
example : isoWeekNumber ⟨2024, 12, 30⟩ = 1 ∧ isoYearOf ⟨2024, 12, 30⟩ = 2025 := by decide
example : isoWeekNumber ⟨2024, 12, 29⟩ = 52 ∧ isoYearOf ⟨2024, 12, 29⟩ = 2024 := by decide
example : isoWeekNumber ⟨2025, 1, 1⟩ = 1 := by decide
example : isoWeekNumber ⟨2026, 1, 1⟩ = 1 := by decide
example : isoWeekNumber ⟨2025, 12, 28⟩ = 52 := by decide
example : isoWeekNumber ⟨2004, 1, 1⟩ = 1 ∧ isoWeekNumber ⟨2003, 12, 28⟩ = 52 := by decide

/-!
## Data model of the upstream JSON document

The API returns a JSON object with an integer field `current_week`, an
array `timetable_tamplate_lines` of template-lesson records and an array
`schedule_lines` of time-slot records (`bot.py` lines 64-104).  Optional
string fields (`discipline_str`, `person_str`, `classroom_str`) are
`Option String`: `none` models both an absent key and a JSON `null`, and
`some ""` an empty string, matching how `dict.get` behaves on each.
-/

/-- One record of `timetable_tamplate_lines`. -/
structure TemplateLesson where
  weekday : Int
  parity : Int
  lesson : Int
  discipline_str : Option String
  person_str : Option String
  classroom_str : Option String
deriving DecidableEq, Repr

/-- One record of `schedule_lines`. -/
structure TimeSlot where
  lesson : Int
  begin_time : String
  end_time : String
deriving DecidableEq, Repr

/-- The parsed schedule document.  `current_week = none` models a JSON
object without a `current_week` key. -/
structure ScheduleData where
  current_week : Option Int
  timetable_tamplate_lines : List TemplateLesson
  schedule_lines : List TimeSlot
deriving DecidableEq, Repr

/-- Python truthiness of an optional string: `dict.get(k)` is truthy iff
the key is present and its value a non-empty string. -/
def optTruthy : Option String → Bool
  | none => false
  | some s => s ≠ ""

/-!
## `get_week_type` (`bot.py` lines 64-74)

The Python function reads the reference date from `datetime.now()`;
here it is the explicit parameter `today`.  A `schedule_data` of `none`
models both Python `None` and any falsy parsed JSON value (an empty
dict, `null`, ...), for which line 65 returns 1.
-/

/-- `get_week_type(schedule_data, target_date)` from `bot.py`, with the
implicit `datetime.now()` made an explicit `today` parameter. -/
def get_week_type (schedule_data : Option ScheduleData) (today target_date : Date) : Int :=
  match schedule_data with
  | none => 1
  | some sd =>
    match sd.current_week with
    | none => 1
    | some current_week_type =>
      let start_week_num := isoWeekNumber today
      let target_week_num := isoWeekNumber target_date
      let week_diff : Int := (target_week_num : Int) - (start_week_num : Int)
      if week_diff % 2 ≠ 0 then
        if current_week_type = 1 then 2 else 1
      else
        current_week_type

/-!
## `format_day_schedule` (`bot.py` lines 76-119)

The list comprehension, the stable sort, the slot dictionary and the
rendering loop are each a named definition so the claims can speak about
them.  The rendering loop is parameterised by the canonical display-time
table (`NEW_SCHEDULE_TIMES` in the source) so that claims comparing two
such tables are statable; `format_day_schedule` instantiates it with the
source's table.
-/

/-- The list comprehension of lines 80-83: lessons of the queried weekday
whose parity is 0 or the resolved one and whose subject is truthy. -/
def lessons_for_day (sd : ScheduleData) (day_of_week week_type : Int) : List TemplateLesson :=
  sd.timetable_tamplate_lines.filter fun lesson =>
    lesson.weekday == day_of_week &&
      (lesson.parity == 0 || lesson.parity == week_type) &&
      optTruthy lesson.discipline_str

/-- Line 87: Python's `list.sort` is a stable ascending sort by the key
`x['lesson']`. -/
def sorted_lessons (sd : ScheduleData) (day_of_week week_type : Int) : List TemplateLesson :=
  (lessons_for_day sd day_of_week week_type).mergeSort fun a b => a.lesson ≤ b.lesson

/-- Line 88: the dict comprehension keyed by `slot['lesson']`; a later
slot with the same key overwrites an earlier one, so lookup finds the
last matching slot. -/
def time_slots (sd : ScheduleData) (n : Int) : Option TimeSlot :=
  sd.schedule_lines.reverse.find? fun slot => slot.lesson == n

/-- Lines 20-27: the configured canonical display-time table. -/
def NEW_SCHEDULE_TIMES : Int → Option String := fun n =>
  if n = 1 then some "08:15-09:45"
  else if n = 2 then some "09:55-11:25"
  else if n = 3 then some "11:35-13:05"
  else if n = 4 then some "14:00-15:30"
  else if n = 5 then some "15:40-17:10"
  else if n = 6 then some "17:20-18:50"
  else none

/-- The digits at offsets `i .. i+n-1`. -/
def digitsAt (cs : List Char) (i n : Nat) : Bool :=
  ((cs.drop i).take n).all fun c => c.isDigit

/-- The number spelled by the digits at offsets `i .. i+n-1`. -/
def natAt (cs : List Char) (i n : Nat) : Nat :=
  ((cs.drop i).take n).foldl (fun a c => a * 10 + (c.toNat - 48)) 0

/-- Lines 101-103: `strptime(s, '%Y-%m-%dT%H:%M:%S.%fZ').strftime('%H:%M')`.
`none` is the `ValueError` strptime raises on a string that does not
parse; a string in the upstream's zero-padded ISO-8601 layout
`YYYY-MM-DDTHH:MM:SS.<1-6 fraction digits>Z` with in-range fields (a
real calendar date, hour ≤ 23, minute and second ≤ 59) parses, and the
`'%H:%M'` rendering is then the five characters at offset 11.
(strptime also tolerates non-zero-padded numeric fields, which the
upstream's fixed-width layout never produces; the model maps those to
the error outcome.) -/
def strptimeHHMM (s : String) : Option String :=
  let cs := s.toList
  let n := cs.length
  let year := natAt cs 0 4
  let month := natAt cs 5 2
  let day := natAt cs 8 2
  let hour := natAt cs 11 2
  let minute := natAt cs 14 2
  let second := natAt cs 17 2
  let shapeOk : Bool :=
    22 ≤ n && n ≤ 27 &&
    digitsAt cs 0 4 && cs.getD 4 ' ' == '-' &&
    digitsAt cs 5 2 && cs.getD 7 ' ' == '-' &&
    digitsAt cs 8 2 && cs.getD 10 ' ' == 'T' &&
    digitsAt cs 11 2 && cs.getD 13 ' ' == ':' &&
    digitsAt cs 14 2 && cs.getD 16 ' ' == ':' &&
    digitsAt cs 17 2 && cs.getD 19 ' ' == '.' &&
    digitsAt cs 20 (n - 21) && cs.getD (n - 1) ' ' == 'Z'
  let rangesOk : Bool :=
    1 ≤ year && 1 ≤ month && month ≤ 12 && 1 ≤ day &&
      day ≤ daysInMonth year month && hour ≤ 23 && minute ≤ 59 && second ≤ 59
  if shapeOk && rangesOk then some (String.mk ((cs.drop 11).take 5)) else none

/-! Anchors for the timestamp parser, matching CPython's `strptime` with
format `'%Y-%m-%dT%H:%M:%S.%fZ'` followed by `strftime('%H:%M')`. -/

example : strptimeHHMM "2024-09-02T09:55:00.000Z" = some "09:55" := by decide
example : strptimeHHMM "2024-09-02T08:15:00.000000Z" = some "08:15" := by decide
example : strptimeHHMM "garbage" = none := by decide
example : strptimeHHMM "2024-02-30T08:15:00.000Z" = none := by decide
example : strptimeHHMM "2024-09-02T24:00:00.000Z" = none := by decide
example : strptimeHHMM "2024-09-02 08:15:00.000Z" = none := by decide

/-- Outcome of one iteration of the rendering loop (lines 93-117):
`skipped` is the `continue` of line 97, `rendered part` appends `part`
to `schedule_parts`, and `raised` is an uncaught `ValueError` from
`strptime` at lines 102-103, which aborts the loop and propagates out
of `format_day_schedule`. -/
inductive RenderStep where
  | skipped
  | rendered (part : String)
  | raised
deriving DecidableEq, Repr

/-- One iteration of the loop of lines 93-117.  The `times` parameter is
the canonical display-time table; line 100's `if not time_string` makes
an absent table entry and an empty one both fall back to parsing the
slot's timestamps, and only then can a malformed timestamp raise. -/
def renderLesson (times : Int → Option String) (sd : ScheduleData)
    (lesson : TemplateLesson) : RenderStep :=
  match time_slots sd lesson.lesson with
  | none => RenderStep.skipped
  | some slot =>
    let fromSlot : Option String :=
      match strptimeHHMM slot.begin_time, strptimeHHMM slot.end_time with
      | some start_time, some end_time => some (start_time ++ "-" ++ end_time)
      | _, _ => none
    let timeString : Option String :=
      match times lesson.lesson with
      | some s => if s = "" then fromSlot else some s
      | none => fromSlot
    match timeString with
    | none => RenderStep.raised
    | some time_string =>
      let subject := lesson.discipline_str.getD "Не указан"
      let teacher := lesson.person_str.getD "Не указан"
      let classroom := lesson.classroom_str.getD "Не указана"
      RenderStep.rendered ("🔔 **" ++ toString lesson.lesson ++ ". " ++ time_string ++ "**\n" ++
        "📚 *Предмет:* " ++ subject ++ "\n" ++
        "🧑‍🏫 *Преподаватель:* " ++ teacher ++ "\n" ++
        "🚪 *Аудитория:* " ++ classroom ++ "\n")

/-- The loop of lines 93-117 over the sorted lessons: collects the
rendered parts in order, skipping lessons without a slot; a `raised`
step aborts the rest of the loop and the exception propagates. -/
def schedule_parts_loop (times : Int → Option String) (sd : ScheduleData) :
    List TemplateLesson → Except Unit (List String)
  | [] => Except.ok []
  | lesson :: rest =>
    match renderLesson times sd lesson with
    | RenderStep.raised => Except.error ()
    | RenderStep.skipped => schedule_parts_loop times sd rest
    | RenderStep.rendered part =>
      match schedule_parts_loop times sd rest with
      | Except.error e => Except.error e
      | Except.ok parts => Except.ok (part :: parts)

/-- `format_day_schedule` with the canonical display-time table as a
parameter.  The result is `Except.error ()` when an uncaught
`ValueError` leaves the function, `Except.ok` with the message
otherwise. -/
def format_day_schedule_with (times : Int → Option String) (sd : ScheduleData)
    (day_of_week : Int) (day_name : String) (week_type : Int) : Except Unit String :=
  let week_name := "Неделя " ++ toString week_type
  let header := "**" ++ day_name ++ " (" ++ week_name ++ ")**\n\n"
  let lessons := lessons_for_day sd day_of_week week_type
  if lessons.isEmpty then
    Except.ok ("**" ++ day_name ++ " (" ++ week_name ++ ")**\n\n✅ В этот день занятий нет.")
  else
    match schedule_parts_loop times sd (lessons.mergeSort fun a b => a.lesson ≤ b.lesson) with
    | Except.error e => Except.error e
    | Except.ok schedule_parts =>
      Except.ok (header ++ String.intercalate "\n" schedule_parts)

/-- `format_day_schedule(schedule_data, day_of_week, day_name, week_type)`
from `bot.py`, using the source's `NEW_SCHEDULE_TIMES` table. -/
def format_day_schedule (sd : ScheduleData) (day_of_week : Int)
    (day_name : String) (week_type : Int) : Except Unit String :=
  format_day_schedule_with NEW_SCHEDULE_TIMES sd day_of_week day_name week_type

/-!
## `get_schedule_for_date` (`bot.py` lines 121-127)
-/

/-- Line 126's day-name list. -/
def day_names : List String :=
  ["Понедельник", "Вторник", "Среда", "Четверг", "Пятница", "Суббота", "Воскресенье"]

/-- The "no data" message of line 123. -/
def noDataMessage : String :=
  "Не удалось получить данные о расписании. Попробуйте позже."

/-- `get_schedule_for_date(target_date, schedule_data)` from `bot.py`;
the `today` parameter is the `datetime.now()` read inside
`get_week_type`.  An uncaught `ValueError` from the formatting layer
propagates through this function too, hence the `Except` result. -/
def get_schedule_for_date (today target_date : Date)
    (schedule_data : Option ScheduleData) : Except Unit String :=
  match schedule_data with
  | none => Except.ok noDataMessage
  | some sd =>
    let weekday : Int := (isoWeekday target_date : Int)
    let week_type := get_week_type (some sd) today target_date
    let day_name := day_names.getD (isoWeekday target_date - 1) ""
    format_day_schedule sd weekday day_name week_type

/-!
## `get_schedule_data` (`bot.py` lines 38-62)

The two effects are made explicit state:

* `NetResult` is the outcome of lines 45-47.  `ok body` is the path on
  which `requests.get`, `raise_for_status` and `response.json()` all
  succeed, `body` being the parsed JSON value (`none` models a falsy
  body such as `null` or `{}`, which `json` parses without error).
  `err` is any `requests.RequestException`: connection error, timeout,
  a non-2xx status raised by `raise_for_status`, or an invalid JSON
  body (`requests`' `JSONDecodeError` is a `RequestException`).
* `CacheState` is the state of `schedule_cache.json`: `absent` raises
  `FileNotFoundError` at line 56, `corrupt` raises `JSONDecodeError` at
  line 57 — both caught at line 60 — and `stored v` parses to `v`.

Every exception the source can raise on these paths lands in one of its
`except` clauses, so the embedding is a total function returning the
`(data, from_cache)` pair together with the cache state after the call.
-/

/-- Outcome of the network request of lines 45-47. -/
inductive NetResult where
  | ok (body : Option ScheduleData)
  | err
deriving DecidableEq, Repr

/-- State of the cache file. -/
inductive CacheState where
  | absent
  | corrupt
  | stored (v : Option ScheduleData)
deriving DecidableEq, Repr

/-- `get_schedule_data()` from `bot.py`: returns the `(data, from_cache)`
pair and the cache state after the call (line 48 overwrites the cache on
success; the failure path only reads it). -/
def get_schedule_data (net : NetResult) (cache : CacheState) :
    (Option ScheduleData × Bool) × CacheState :=
  match net with
  | .ok data => ((data, false), .stored data)
  | .err =>
    match cache with
    | .stored cached_data => ((cached_data, true), cache)
    | .absent => ((none, false), cache)
    | .corrupt => ((none, false), cache)

/-!
## Calendar lemmas

Facts about the calendar layer needed by the week-parity claims: the
day count grows by 365 or 366 per year, a valid date's rata-die number
lies between Jan 1st of its year and Jan 1st of the next, and a date's
rata-die number lies in the 7-day-indexed window of its ISO year.
-/

theorem daysBeforeYear_succ (y : Nat) (hy : 1 ≤ y) :
    daysBeforeYear (y + 1) = daysBeforeYear y + (if isLeap y then 366 else 365) := by
  obtain ⟨p, rfl⟩ : ∃ p, y = p + 1 := ⟨y - 1, by omega⟩
  have hps : p / 100 ≤ p := Nat.div_le_self p 100
  have h4_of_100 : (100 : Nat) ∣ p + 1 → (4 : Nat) ∣ p + 1 :=
    fun h => dvd_trans (by norm_num) h
  have h100_of_400 : (400 : Nat) ∣ p + 1 → (100 : Nat) ∣ p + 1 :=
    fun h => dvd_trans (by norm_num) h
  simp only [daysBeforeYear, Nat.add_sub_cancel]
  by_cases d4 : (4 : Nat) ∣ p + 1 <;> by_cases d100 : (100 : Nat) ∣ p + 1 <;>
    by_cases d400 : (400 : Nat) ∣ p + 1
  · rw [Nat.succ_div_of_dvd d4, Nat.succ_div_of_dvd d100, Nat.succ_div_of_dvd d400]
    have hL : isLeap (p + 1) = true := by
      simp [isLeap, Nat.mod_eq_zero_of_dvd d4, Nat.mod_eq_zero_of_dvd d400]
    rw [hL, if_pos rfl]
    generalize hA : p / 4 = A
    generalize hC : p / 400 = C
    generalize hB : p / 100 = B
    rw [hB] at hps
    omega
  · rw [Nat.succ_div_of_dvd d4, Nat.succ_div_of_dvd d100, Nat.succ_div_of_not_dvd d400]
    have hm400 : ¬(p + 1) % 400 = 0 := fun h => d400 (Nat.dvd_of_mod_eq_zero h)
    have hL : isLeap (p + 1) = false := by
      simp [isLeap, Nat.mod_eq_zero_of_dvd d4, Nat.mod_eq_zero_of_dvd d100, hm400]
    rw [hL, if_neg (by simp)]
    generalize hA : p / 4 = A
    generalize hC : p / 400 = C
    generalize hB : p / 100 = B
    rw [hB] at hps
    omega
  · exact absurd (h100_of_400 d400) d100
  · rw [Nat.succ_div_of_dvd d4, Nat.succ_div_of_not_dvd d100, Nat.succ_div_of_not_dvd d400]
    have hm100 : ¬(p + 1) % 100 = 0 := fun h => d100 (Nat.dvd_of_mod_eq_zero h)
    have hL : isLeap (p + 1) = true := by
      simp [isLeap, Nat.mod_eq_zero_of_dvd d4, hm100]
    rw [hL, if_pos rfl]
    generalize hA : p / 4 = A
    generalize hC : p / 400 = C
    generalize hB : p / 100 = B
    rw [hB] at hps
    omega
  · exact absurd (h4_of_100 d100) d4
  · exact absurd (h4_of_100 d100) d4
  · exact absurd (h4_of_100 (h100_of_400 d400)) d4
  · rw [Nat.succ_div_of_not_dvd d4, Nat.succ_div_of_not_dvd d100,
      Nat.succ_div_of_not_dvd d400]
    have hm4 : ¬(p + 1) % 4 = 0 := fun h => d4 (Nat.dvd_of_mod_eq_zero h)
    have hL : isLeap (p + 1) = false := by
      simp [isLeap, hm4]
    rw [hL, if_neg (by simp)]
    generalize hA : p / 4 = A
    generalize hC : p / 400 = C
    generalize hB : p / 100 = B
    rw [hB] at hps
    omega

theorem daysBeforeYear_succ_bounds (y : Nat) (hy : 1 ≤ y) :
    daysBeforeYear y + 365 ≤ daysBeforeYear (y + 1) ∧
      daysBeforeYear (y + 1) ≤ daysBeforeYear y + 366 := by
  rw [daysBeforeYear_succ y hy]
  split_ifs <;> omega

theorem dayOfYear_bounds (y m d : Nat) (hm1 : 1 ≤ m) (hm2 : m ≤ 12)
    (hd1 : 1 ≤ d) (hd2 : d ≤ daysInMonth y m) :
    1 ≤ dayOfYear y m d ∧ dayOfYear y m d ≤ (if isLeap y then 366 else 365) := by
  unfold daysInMonth at hd2
  unfold dayOfYear
  interval_cases m <;> cases h : isLeap y <;>
    simp only [h, monthLengths] at hd2 ⊢ <;> simp at hd2 ⊢ <;> omega

theorem rataDie_lower (dt : Date) (hv : dt.Valid) :
    daysBeforeYear dt.year + 1 ≤ rataDie dt := by
  obtain ⟨h1, h2, h3, h4, h5⟩ := hv
  have hd := dayOfYear_bounds dt.year dt.month dt.day h2 h3 h4 h5
  unfold rataDie
  omega

theorem rataDie_upper (dt : Date) (hv : dt.Valid) :
    rataDie dt ≤ daysBeforeYear (dt.year + 1) := by
  obtain ⟨h1, h2, h3, h4, h5⟩ := hv
  have hd := dayOfYear_bounds dt.year dt.month dt.day h2 h3 h4 h5
  have hs := daysBeforeYear_succ dt.year (by omega)
  unfold rataDie
  split_ifs at hd hs <;> omega

theorem week1Monday_bounds (y : Nat) :
    week1Monday y ≤ daysBeforeYear y + 4 ∧
      daysBeforeYear y + 4 ≤ week1Monday y + 6 := by
  have h : rataDie ⟨y, 1, 4⟩ = daysBeforeYear y + 4 := rfl
  unfold week1Monday
  rw [h]
  omega

/-- A valid date's rata-die number lies in the half-open week window of
its ISO year: on or after that year's week-1 Monday and before the next
year's. -/
theorem isoYear_window (dt : Date) (hv : dt.Valid) :
    week1Monday (isoYearOf dt) ≤ rataDie dt ∧
      rataDie dt < week1Monday (isoYearOf dt + 1) := by
  have hy2 : 2 ≤ dt.year := hv.1
  have hlo := rataDie_lower dt hv
  have hhi := rataDie_upper dt hv
  have wym1 := week1Monday_bounds (dt.year - 1)
  have wy := week1Monday_bounds dt.year
  have wyp1 := week1Monday_bounds (dt.year + 1)
  have wyp2 := week1Monday_bounds (dt.year + 2)
  have sym1 := daysBeforeYear_succ_bounds (dt.year - 1) (by omega)
  have syp1 := daysBeforeYear_succ_bounds (dt.year + 1) (by omega)
  rw [show dt.year + 1 + 1 = dt.year + 2 from rfl] at syp1
  have hyy : dt.year - 1 + 1 = dt.year := by omega
  unfold isoYearOf
  split_ifs with h1 h2
  · rw [hyy]
    rw [hyy] at sym1
    exact ⟨by omega, h1⟩
  · refine ⟨h2, ?_⟩
    rw [show dt.year + 1 + 1 = dt.year + 2 from rfl]
    omega
  · exact ⟨by omega, by omega⟩

/-- Two valid dates exactly seven days apart and in the same ISO year
have consecutive ISO week numbers. -/
theorem isoWeekNumber_add_seven (d1 d2 : Date) (hv1 : d1.Valid) (hv2 : d2.Valid)
    (h7 : rataDie d2 = rataDie d1 + 7) (hy : isoYearOf d1 = isoYearOf d2) :
    isoWeekNumber d2 = isoWeekNumber d1 + 1 := by
  obtain ⟨w1, w2⟩ := isoYear_window d1 hv1
  obtain ⟨w3, w4⟩ := isoYear_window d2 hv2
  unfold isoWeekNumber
  rw [← hy] at w3 w4 ⊢
  rw [h7]
  have key : rataDie d1 + 7 - week1Monday (isoYearOf d1) =
      rataDie d1 - week1Monday (isoYearOf d1) + 7 := by omega
  rw [key, Nat.add_div_right _ (by norm_num)]

/-- Unfolding equation for `get_week_type` when the document carries a
`current_week` value. -/
theorem get_week_type_eq (sd : ScheduleData) (p : Int) (hp : sd.current_week = some p)
    (today target_date : Date) :
    get_week_type (some sd) today target_date =
      if ((isoWeekNumber target_date : Int) - (isoWeekNumber today : Int)) % 2 ≠ 0 then
        (if p = 1 then 2 else 1)
      else p := by
  simp only [get_week_type, hp]

/-- The week-parity resolution algorithm as the specification words it
(§4.1): subtract the two dates' ISO calendar week numbers on the raw
numeric indices, flip `1 ↔ 2` on an odd difference, keep the parity on
an even one. -/
def resolveSpec (current_parity : Int) (reference_date target_date : Date) : Int :=
  let diff : Int := (isoWeekNumber target_date : Int) - (isoWeekNumber reference_date : Int)
  if diff % 2 = 1 then (if current_parity = 1 then 2 else 1) else current_parity

/-- C2: for every current parity `p ∈ {1,2}`, reference and target date,
`get_week_type` computes the difference of raw ISO week numbers with no
year-boundary correction and returns the opposite parity when the
difference is odd and `p` itself when even — exactly the specification's
`resolveSpec`. -/
theorem get_week_type_matches_spec (sd : ScheduleData) (p : Int)
    (hp : sd.current_week = some p) (hp12 : p = 1 ∨ p = 2)
    (reference_date target_date : Date) :
    get_week_type (some sd) reference_date target_date =
      resolveSpec p reference_date target_date := by
  rw [get_week_type_eq sd p hp]
  unfold resolveSpec
  rcases Int.emod_two_eq
      ((isoWeekNumber target_date : Int) - (isoWeekNumber reference_date : Int)) with h | h <;>
    simp [h]

/-- Witness for C2 at a concrete document and concrete dates. -/
theorem get_week_type_matches_spec_witness :
    (ScheduleData.mk (some 1) [] []).current_week = some 1 ∧ ((1 : Int) = 1 ∨ (1 : Int) = 2) ∧
    get_week_type (some (ScheduleData.mk (some 1) [] [])) ⟨2025, 10, 6⟩ ⟨2025, 10, 20⟩ =
      resolveSpec 1 ⟨2025, 10, 6⟩ ⟨2025, 10, 20⟩ :=
  ⟨rfl, Or.inl rfl, get_week_type_matches_spec _ 1 rfl (Or.inl rfl) _ _⟩

/-- C1 counterexample: 2025-10-06 and 2025-10-13 are exactly seven days
apart, in the same ISO year, yet `get_week_type` (current parity 1,
fixed reference date) returns different parities for them — one week
apart means an odd week-number difference, so the parity flips rather
than stays equal. -/
theorem seven_days_same_parity_cex :
    rataDie ⟨2025, 10, 13⟩ = rataDie ⟨2025, 10, 6⟩ + 7 ∧
    isoYearOf ⟨2025, 10, 6⟩ = isoYearOf ⟨2025, 10, 13⟩ ∧
    get_week_type (some (ScheduleData.mk (some 1) [] [])) ⟨2025, 10, 6⟩ ⟨2025, 10, 6⟩ ≠
      get_week_type (some (ScheduleData.mk (some 1) [] [])) ⟨2025, 10, 6⟩ ⟨2025, 10, 13⟩ := by
  decide

/-- C1 (amended): for every current parity `p ∈ {1,2}` and valid target
dates exactly 7 days apart that do not straddle an ISO year boundary,
`get_week_type` returns the opposite parity for the later date (the
results are `{1,2}` with `later = 3 - earlier`), not the same one. -/
theorem seven_days_apart_flips_parity (sd : ScheduleData) (p : Int)
    (hp : sd.current_week = some p) (hp12 : p = 1 ∨ p = 2) (today d1 d2 : Date)
    (hv1 : d1.Valid) (hv2 : d2.Valid) (h7 : rataDie d2 = rataDie d1 + 7)
    (hy : isoYearOf d1 = isoYearOf d2) :
    get_week_type (some sd) today d2 = 3 - get_week_type (some sd) today d1 := by
  have hw := isoWeekNumber_add_seven d1 d2 hv1 hv2 h7 hy
  rw [get_week_type_eq sd p hp, get_week_type_eq sd p hp, hw]
  rcases hp12 with rfl | rfl <;>
  · push_cast
    split_ifs <;> omega

/-- Witness for the amended C1 at concrete dates a week apart. -/
theorem seven_days_apart_flips_parity_witness :
    (ScheduleData.mk (some 2) [] []).current_week = some 2 ∧
    ((2 : Int) = 1 ∨ (2 : Int) = 2) ∧
    (⟨2025, 10, 6⟩ : Date).Valid ∧ (⟨2025, 10, 13⟩ : Date).Valid ∧
    rataDie ⟨2025, 10, 13⟩ = rataDie ⟨2025, 10, 6⟩ + 7 ∧
    isoYearOf ⟨2025, 10, 6⟩ = isoYearOf ⟨2025, 10, 13⟩ ∧
    get_week_type (some (ScheduleData.mk (some 2) [] [])) ⟨2025, 1, 15⟩ ⟨2025, 10, 13⟩ =
      3 - get_week_type (some (ScheduleData.mk (some 2) [] [])) ⟨2025, 1, 15⟩ ⟨2025, 10, 6⟩ :=
  ⟨rfl, Or.inr rfl, by decide, by decide, by decide, by decide,
    seven_days_apart_flips_parity _ 2 rfl (Or.inr rfl) _ _ _ (by decide) (by decide)
      (by decide) (by decide)⟩

/-- C6 counterexample: on a document whose `current_week` is the
out-of-range value 3 and an even week difference, `get_week_type`
returns 3 — not a parity in `{1,2}`. -/
theorem week_parity_malformed_cex :
    ¬(get_week_type (some (ScheduleData.mk (some 3) [] [])) ⟨2025, 1, 1⟩ ⟨2025, 1, 1⟩ = 1 ∨
      get_week_type (some (ScheduleData.mk (some 3) [] [])) ⟨2025, 1, 1⟩ ⟨2025, 1, 1⟩ = 2) := by
  decide

/-- The document's `current_week`, when the document and the field are
present, holds a valid parity value. -/
def currentWeekWellFormed : Option ScheduleData → Prop
  | none => True
  | some sd =>
    match sd.current_week with
    | none => True
    | some p => p = 1 ∨ p = 2

/-- C6 (amended): `get_week_type` is total with no error path; it
returns a parity in `{1,2}` whenever the document's `current_week`, if
present, is 1 or 2; an absent document and an absent `current_week`
field both default to the fixed parity 1.  (A present out-of-range
`current_week` is echoed back on an even week difference, which is what
the counterexample exhibits.) -/
theorem get_week_type_total (sd? : Option ScheduleData) (today target : Date)
    (h : currentWeekWellFormed sd?) :
    (get_week_type sd? today target = 1 ∨ get_week_type sd? today target = 2) ∧
    (sd? = none → get_week_type sd? today target = 1) ∧
    (∀ sd, sd? = some sd → sd.current_week = none → get_week_type sd? today target = 1) := by
  match sd? with
  | none =>
    exact ⟨Or.inl rfl, fun _ => rfl, fun sd hsd => absurd hsd (by simp)⟩
  | some sd =>
    cases hcw : sd.current_week with
    | none =>
      have h1 : get_week_type (some sd) today target = 1 := by
        simp only [get_week_type, hcw]
      exact ⟨Or.inl h1, fun hx => absurd hx (by simp), fun sd' hsd' hcw' => h1⟩
    | some p =>
      have h12 : p = 1 ∨ p = 2 := by
        simp only [currentWeekWellFormed, hcw] at h
        exact h
      rw [get_week_type_eq sd p hcw]
      refine ⟨?_, fun hx => absurd hx (by simp), fun sd' hsd' hcw' => ?_⟩
      · split_ifs with hif hp1
        · exact Or.inr rfl
        · exact Or.inl rfl
        · exact h12
      · cases hsd'
        rw [hcw'] at hcw
        exact Option.noConfusion hcw

/-- Witness for the amended C6 at a concrete well-formed document. -/
theorem get_week_type_total_witness :
    currentWeekWellFormed (some (ScheduleData.mk (some 2) [] [])) ∧
    ((get_week_type (some (ScheduleData.mk (some 2) [] [])) ⟨2025, 3, 3⟩ ⟨2025, 3, 4⟩ = 1 ∨
      get_week_type (some (ScheduleData.mk (some 2) [] [])) ⟨2025, 3, 3⟩ ⟨2025, 3, 4⟩ = 2) ∧
     (some (ScheduleData.mk (some 2) [] []) = none →
      get_week_type (some (ScheduleData.mk (some 2) [] [])) ⟨2025, 3, 3⟩ ⟨2025, 3, 4⟩ = 1) ∧
     (∀ sd, some (ScheduleData.mk (some 2) [] []) = some sd → sd.current_week = none →
      get_week_type (some (ScheduleData.mk (some 2) [] [])) ⟨2025, 3, 3⟩ ⟨2025, 3, 4⟩ = 1)) :=
  ⟨Or.inr rfl, get_week_type_total (some (ScheduleData.mk (some 2) [] [])) ⟨2025, 3, 3⟩
    ⟨2025, 3, 4⟩ (Or.inr rfl)⟩

/-- `optTruthy` holds exactly on a present, non-empty string. -/
theorem optTruthy_iff (o : Option String) :
    optTruthy o = true ↔ ∃ s, o = some s ∧ s ≠ "" := by
  cases o <;> simp [optTruthy]

/-- C3: a template lesson is a candidate of the projected day iff it is
one of the document's template lines, its weekday equals the queried
weekday, its parity is 0 or the resolved parity, and its subject field
is present and non-empty; in particular a lesson whose subject is
absent or empty is excluded for all inputs. -/
theorem lesson_candidate_iff (sd : ScheduleData) (day_of_week week_type : Int)
    (l : TemplateLesson) :
    (l ∈ lessons_for_day sd day_of_week week_type ↔
      l ∈ sd.timetable_tamplate_lines ∧ l.weekday = day_of_week ∧
        (l.parity = 0 ∨ l.parity = week_type) ∧
        ∃ s, l.discipline_str = some s ∧ s ≠ "") ∧
    (l.discipline_str = none ∨ l.discipline_str = some "" →
      l ∉ lessons_for_day sd day_of_week week_type) := by
  have hiff : l ∈ lessons_for_day sd day_of_week week_type ↔
      l ∈ sd.timetable_tamplate_lines ∧ l.weekday = day_of_week ∧
        (l.parity = 0 ∨ l.parity = week_type) ∧
        ∃ s, l.discipline_str = some s ∧ s ≠ "" := by
    simp [lessons_for_day, List.mem_filter, optTruthy_iff, and_assoc]
  refine ⟨hiff, fun hsub hmem => ?_⟩
  obtain ⟨-, -, -, s, hs, hne⟩ := hiff.mp hmem
  rcases hsub with h | h
  · rw [h] at hs
    cases hs
  · rw [h] at hs
    cases hs
    exact hne rfl

/-- Witness for C3: a lesson with an empty subject is excluded. -/
theorem lesson_candidate_iff_witness :
    ((TemplateLesson.mk 1 0 2 (some "") none none).discipline_str = none ∨
      (TemplateLesson.mk 1 0 2 (some "") none none).discipline_str = some "") ∧
    TemplateLesson.mk 1 0 2 (some "") none none ∉
      lessons_for_day
        (ScheduleData.mk (some 1) [TemplateLesson.mk 1 0 2 (some "") none none] []) 1 1 :=
  ⟨Or.inr rfl,
    (lesson_candidate_iff
        (ScheduleData.mk (some 1) [TemplateLesson.mk 1 0 2 (some "") none none] []) 1 1
        (TemplateLesson.mk 1 0 2 (some "") none none)).2 (Or.inr rfl)⟩

/-- The sort key of line 87 is transitive. -/
theorem lessonLE_trans (a b c : TemplateLesson)
    (hab : decide (a.lesson ≤ b.lesson) = true)
    (hbc : decide (b.lesson ≤ c.lesson) = true) :
    decide (a.lesson ≤ c.lesson) = true := by
  simp only [decide_eq_true_eq] at hab hbc ⊢
  omega

/-- The sort key of line 87 is total. -/
theorem lessonLE_total (a b : TemplateLesson) :
    (decide (a.lesson ≤ b.lesson) || decide (b.lesson ≤ a.lesson)) = true := by
  simp only [Bool.or_eq_true, decide_eq_true_eq]
  omega

/-- C8: the candidate list after line 87's sort is ascending in
`lesson` (the lesson index), and lessons sharing a lesson index keep
their original relative order — Python's `list.sort` is stable. -/
theorem sorted_lessons_sorted_stable (sd : ScheduleData) (day_of_week week_type : Int) :
    List.Pairwise (fun a b : TemplateLesson => a.lesson ≤ b.lesson)
      (sorted_lessons sd day_of_week week_type) ∧
    ∀ v : Int,
      (sorted_lessons sd day_of_week week_type).filter (fun l => l.lesson == v) =
        (lessons_for_day sd day_of_week week_type).filter (fun l => l.lesson == v) := by
  constructor
  · unfold sorted_lessons
    refine List.Pairwise.imp (fun h => ?_)
      (List.sorted_mergeSort lessonLE_trans lessonLE_total
        (lessons_for_day sd day_of_week week_type))
    exact of_decide_eq_true h
  · intro v
    unfold sorted_lessons
    have hsub : List.Sublist
        ((lessons_for_day sd day_of_week week_type).filter (fun l => l.lesson == v))
        (lessons_for_day sd day_of_week week_type) :=
      List.filter_sublist _
    have hpair : ((lessons_for_day sd day_of_week week_type).filter
        (fun l => l.lesson == v)).Pairwise
          (fun a b : TemplateLesson => decide (a.lesson ≤ b.lesson) = true) := by
      rw [List.pairwise_iff_forall_sublist]
      intro a b hab
      have ha : a.lesson = v := by
        simpa using List.of_mem_filter (hab.subset (by simp))
      have hb : b.lesson = v := by
        simpa using List.of_mem_filter (hab.subset (by simp))
      simp [ha, hb]
    have hst := List.sublist_mergeSort lessonLE_trans lessonLE_total hpair hsub
    have h2 := hst.filter (fun l => l.lesson == v)
    rw [List.filter_filter] at h2
    have h2' : List.Sublist
        ((lessons_for_day sd day_of_week week_type).filter (fun l => l.lesson == v))
        (((lessons_for_day sd day_of_week week_type).mergeSort
          (fun a b => decide (a.lesson ≤ b.lesson))).filter (fun l => l.lesson == v)) := by
      simpa using h2
    have hperm := (List.mergeSort_perm (lessons_for_day sd day_of_week week_type)
      (fun a b => decide (a.lesson ≤ b.lesson))).filter (fun l => l.lesson == v)
    exact (h2'.eq_of_length hperm.length_eq.symm).symm

/-- A slot found in the line-88 dictionary is one of the document's
`schedule_lines`. -/
theorem time_slots_mem (sd : ScheduleData) (n : Int) (slot : TimeSlot)
    (h : time_slots sd n = some slot) : slot ∈ sd.schedule_lines := by
  unfold time_slots at h
  exact List.mem_reverse.mp (List.mem_of_find?_eq_some h)

/-- Whether a loop iteration emitted an entry of `schedule_parts`. -/
def stepRendered : RenderStep → Bool
  | RenderStep.rendered _ => true
  | _ => false

/-- Whether the formatting left the function by an uncaught exception. -/
def raisesValueError : Except Unit String → Bool
  | Except.error _ => true
  | Except.ok _ => false

/-- The lessons the rendering loop actually emits (lines 93-117), for a
given canonical display-time table. -/
def rendered_lessons (times : Int → Option String) (sd : ScheduleData)
    (day_of_week week_type : Int) : List TemplateLesson :=
  (sorted_lessons sd day_of_week week_type).filter fun l =>
    stepRendered (renderLesson times sd l)

/-- Every slot timestamp of the document parses — the upstream contract
of well-formed ISO-8601 timestamp strings. -/
def slotTimesParse (sd : ScheduleData) : Prop :=
  ∀ slot ∈ sd.schedule_lines,
    (strptimeHHMM slot.begin_time).isSome ∧ (strptimeHHMM slot.end_time).isSome

instance (sd : ScheduleData) : Decidable (slotTimesParse sd) := by
  unfold slotTimesParse; infer_instance

/-- Line 97's `continue` fires before the canonical table is consulted:
a lesson without a slot is skipped whatever the table holds. -/
theorem renderLesson_skipped (times : Int → Option String) (sd : ScheduleData)
    (l : TemplateLesson) (h : time_slots sd l.lesson = none) :
    renderLesson times sd l = RenderStep.skipped := by
  unfold renderLesson
  rw [h]

/-- When every slot timestamp parses, an iteration never raises and
emits output exactly when the lesson's index is in the slot dictionary,
whatever the canonical table holds. -/
theorem renderLesson_parse_ok (times : Int → Option String) (sd : ScheduleData)
    (hparse : slotTimesParse sd) (l : TemplateLesson) :
    stepRendered (renderLesson times sd l) = (time_slots sd l.lesson).isSome ∧
    renderLesson times sd l ≠ RenderStep.raised := by
  cases hts : time_slots sd l.lesson with
  | none =>
    rw [renderLesson_skipped times sd l hts]
    exact ⟨rfl, by simp⟩
  | some slot =>
    obtain ⟨hb, he⟩ := hparse slot (time_slots_mem sd l.lesson slot hts)
    obtain ⟨sb, hsb⟩ := Option.isSome_iff_exists.mp hb
    obtain ⟨se, hse⟩ := Option.isSome_iff_exists.mp he
    simp only [renderLesson, hts, hsb, hse]
    cases htimes : times l.lesson with
    | none => simp [stepRendered]
    | some s =>
      by_cases hs : s = "" <;> simp [hs, stepRendered]

/-- When every slot timestamp parses, the rendering loop never raises. -/
theorem schedule_parts_loop_ok (times : Int → Option String) (sd : ScheduleData)
    (hparse : slotTimesParse sd) (ls : List TemplateLesson) :
    schedule_parts_loop times sd ls ≠ Except.error () := by
  induction ls with
  | nil => simp [schedule_parts_loop]
  | cons l rest ih =>
    unfold schedule_parts_loop
    cases hr : renderLesson times sd l with
    | raised => exact absurd hr (renderLesson_parse_ok times sd hparse l).2
    | skipped => exact ih
    | rendered part =>
      cases hlp : schedule_parts_loop times sd rest with
      | error e => cases e; exact absurd hlp ih
      | ok parts => simp

/-- When every slot timestamp parses, formatting always completes. -/
theorem format_day_schedule_with_ok (times : Int → Option String) (sd : ScheduleData)
    (hparse : slotTimesParse sd) (day_of_week : Int) (day_name : String)
    (week_type : Int) :
    format_day_schedule_with times sd day_of_week day_name week_type ≠
      Except.error () := by
  simp only [format_day_schedule_with]
  split
  · simp
  · cases hlp : schedule_parts_loop times sd
        ((lessons_for_day sd day_of_week week_type).mergeSort
          fun a b => a.lesson ≤ b.lesson) with
    | error e => cases e; exact absurd hlp (schedule_parts_loop_ok times sd hparse _)
    | ok parts => simp

/-- When every slot timestamp parses, the emitted lessons do not depend
on the canonical display-time table. -/
theorem rendered_lessons_eq (sd : ScheduleData) (hparse : slotTimesParse sd)
    (times₁ times₂ : Int → Option String) (day_of_week week_type : Int) :
    rendered_lessons times₁ sd day_of_week week_type =
      rendered_lessons times₂ sd day_of_week week_type := by
  unfold rendered_lessons
  refine List.filter_congr fun l hl => ?_
  rw [(renderLesson_parse_ok times₁ sd hparse l).1,
    (renderLesson_parse_ok times₂ sd hparse l).1]

/-- The canonical table of the C7 counterexample: an entry for lesson
index 7 only. -/
def tableWithSeven : Int → Option String := fun n =>
  if n = 7 then some "08:15-09:45" else none

/-- The empty canonical table. -/
def tableEmpty : Int → Option String := fun _ => none

/-- A document whose single matched lesson has a slot whose timestamps
`strptime` cannot parse. -/
def malformedSlotDoc : ScheduleData :=
  ScheduleData.mk (some 1)
    [TemplateLesson.mk 1 0 7 (some "Физика") none none]
    [TimeSlot.mk 7 "garbage" "garbage"]

/-- C7 counterexample: on `malformedSlotDoc`, two runs differing only in
the canonical display-time table do not select the same lessons — with
the table entry the lesson is rendered, without it the timestamp parse
of lines 102-103 raises `ValueError` and the whole formatting aborts,
so the table affected which lessons appear, not only the time string. -/
theorem canonical_table_render_raise_cex :
    stepRendered (renderLesson tableWithSeven malformedSlotDoc
        (TemplateLesson.mk 1 0 7 (some "Физика") none none)) = true ∧
    renderLesson tableEmpty malformedSlotDoc
        (TemplateLesson.mk 1 0 7 (some "Физика") none none) = RenderStep.raised ∧
    rendered_lessons tableWithSeven malformedSlotDoc 1 1 ≠
      rendered_lessons tableEmpty malformedSlotDoc 1 1 ∧
    raisesValueError
        (format_day_schedule_with tableWithSeven malformedSlotDoc 1 "Понедельник" 1) =
      false ∧
    raisesValueError
        (format_day_schedule_with tableEmpty malformedSlotDoc 1 "Понедельник" 1) =
      true := by
  have hlfd : lessons_for_day malformedSlotDoc 1 1 =
      [TemplateLesson.mk 1 0 7 (some "Физика") none none] := by decide
  have hms : (lessons_for_day malformedSlotDoc 1 1).mergeSort
      (fun a b : TemplateLesson => a.lesson ≤ b.lesson) =
      [TemplateLesson.mk 1 0 7 (some "Физика") none none] := by
    rw [hlfd, List.mergeSort_singleton]
  refine ⟨by decide, by decide, ?_, ?_, ?_⟩
  · unfold rendered_lessons sorted_lessons
    rw [hms]
    decide
  · simp only [format_day_schedule_with]
    rw [hlfd, List.mergeSort_singleton]
    decide
  · simp only [format_day_schedule_with]
    rw [hlfd, List.mergeSort_singleton]
    decide

/-- C7 (amended): a matched lesson whose index is absent from the slot
dictionary is skipped before the canonical display-time table is even
consulted, whatever that table contains; and when every slot timestamp
parses (the upstream's contract), an iteration never raises and emits
exactly when the slot is present, two runs differing only in the
canonical table render the same lessons, and formatting always
completes — only then does the table affect nothing but the displayed
time string.  (Without the parse condition the table can decide between
rendering and an uncaught `ValueError`, as the counterexample shows.) -/
theorem canonical_table_presentation_only (sd : ScheduleData) :
    (∀ (times : Int → Option String) (l : TemplateLesson),
        time_slots sd l.lesson = none → renderLesson times sd l = RenderStep.skipped) ∧
    (slotTimesParse sd →
      (∀ (times : Int → Option String) (l : TemplateLesson),
          renderLesson times sd l ≠ RenderStep.raised ∧
          stepRendered (renderLesson times sd l) = (time_slots sd l.lesson).isSome) ∧
      (∀ (times₁ times₂ : Int → Option String) (day_of_week week_type : Int),
          rendered_lessons times₁ sd day_of_week week_type =
            rendered_lessons times₂ sd day_of_week week_type) ∧
      (∀ (times : Int → Option String) (day_of_week : Int) (day_name : String)
          (week_type : Int),
          format_day_schedule_with times sd day_of_week day_name week_type ≠
            Except.error ())) := by
  refine ⟨fun times l h => renderLesson_skipped times sd l h,
    fun hparse => ⟨?_, ?_, ?_⟩⟩
  · intro times l
    exact ⟨(renderLesson_parse_ok times sd hparse l).2,
      (renderLesson_parse_ok times sd hparse l).1⟩
  · exact fun times₁ times₂ day_of_week week_type =>
      rendered_lessons_eq sd hparse times₁ times₂ day_of_week week_type
  · exact fun times day_of_week day_name week_type =>
      format_day_schedule_with_ok times sd hparse day_of_week day_name week_type

/-- A document with one matched lesson and one slot in the upstream's
well-formed timestamp layout, for the C7 witness; `NEW_SCHEDULE_TIMES`
has an entry for its index 2 while `tableEmpty` does not, so the two
witness runs really take different time-string paths. -/
def wellFormedSlotDoc : ScheduleData :=
  ScheduleData.mk (some 1)
    [TemplateLesson.mk 1 0 2 (some "Физика") none none]
    [TimeSlot.mk 2 "2024-09-02T09:55:00.000Z" "2024-09-02T11:25:00.000Z"]

/-- Witness for the amended C7: on a document whose slot timestamps all
parse, two concrete runs with different canonical tables render the same
lessons and neither raises. -/
theorem canonical_table_presentation_only_witness :
    slotTimesParse wellFormedSlotDoc ∧
    rendered_lessons NEW_SCHEDULE_TIMES wellFormedSlotDoc 1 1 =
      rendered_lessons tableEmpty wellFormedSlotDoc 1 1 ∧
    format_day_schedule_with tableEmpty wellFormedSlotDoc 1 "Понедельник" 1 ≠
      Except.error () :=
  ⟨by decide,
    ((canonical_table_presentation_only wellFormedSlotDoc).2 (by decide)).2.1
      NEW_SCHEDULE_TIMES tableEmpty 1 1,
    ((canonical_table_presentation_only wellFormedSlotDoc).2 (by decide)).2.2
      tableEmpty 1 "Понедельник" 1⟩

/-- C4: when the network fetch fails and the cache is absent or
unparseable, `get_schedule_data` returns the pair (no document,
`from_cache = false`) — every exception on this path lands in an
`except` clause, so the embedding is a total function — and the
day-schedule query then yields the "no data" message. -/
theorem fetch_fail_no_cache_yields_no_data (today target : Date) (cache : CacheState)
    (h : cache = CacheState.absent ∨ cache = CacheState.corrupt) :
    (get_schedule_data NetResult.err cache).1 = (none, false) ∧
    get_schedule_for_date today target (get_schedule_data NetResult.err cache).1.1 =
      Except.ok noDataMessage := by
  rcases h with rfl | rfl <;> exact ⟨rfl, rfl⟩

/-- Witness for C4 with an absent cache. -/
theorem fetch_fail_no_cache_yields_no_data_witness :
    (CacheState.absent = CacheState.absent ∨ CacheState.absent = CacheState.corrupt) ∧
    ((get_schedule_data NetResult.err CacheState.absent).1 = (none, false) ∧
     get_schedule_for_date ⟨2025, 5, 5⟩ ⟨2025, 5, 6⟩
        (get_schedule_data NetResult.err CacheState.absent).1.1 = Except.ok noDataMessage) :=
  ⟨Or.inl rfl,
    fetch_fail_no_cache_yields_no_data ⟨2025, 5, 5⟩ ⟨2025, 5, 6⟩ CacheState.absent
      (Or.inl rfl)⟩

/-- C5: when the network fetch fails but a cached record exists and
parses to `v`, `get_schedule_data` returns exactly `(v, from_cache =
true)` and leaves the cache unchanged, so the day schedule computed
from the result is the one computed from the cached document. -/
theorem fetch_fail_with_cache_returns_cached (v : Option ScheduleData)
    (today target : Date) :
    get_schedule_data NetResult.err (CacheState.stored v) =
      ((v, true), CacheState.stored v) ∧
    get_schedule_for_date today target
        (get_schedule_data NetResult.err (CacheState.stored v)).1.1 =
      get_schedule_for_date today target v :=
  ⟨rfl, rfl⟩

/-- C9: the cache record is overwritten with the fetched body exactly on
a successful fetch; on a failed fetch the cache state is returned
untouched. -/
theorem cache_written_iff_fetch_ok :
    (∀ (body : Option ScheduleData) (cache : CacheState),
        (get_schedule_data (NetResult.ok body) cache).2 = CacheState.stored body) ∧
    (∀ cache : CacheState, (get_schedule_data NetResult.err cache).2 = cache) := by
  refine ⟨fun body cache => rfl, fun cache => ?_⟩
  cases cache <;> rfl

/-- C10 counterexample: when the cache file parses to a falsy JSON value
(`null`, written there by a previous successful fetch of a falsy body),
a failed fetch returns the pair (no document, `from_cache = true`) —
the invariant "flag true implies document present" does not hold. -/
theorem from_cache_flag_cex :
    (get_schedule_data NetResult.err (CacheState.stored none)).1 = (none, true) ∧
    (get_schedule_data (NetResult.ok none) CacheState.absent).2 =
      CacheState.stored none :=
  ⟨rfl, rfl⟩

/-- C10 (amended): the `from_cache` flag is true only when the fetch
failed and the cache record existed and parsed; the returned document is
then exactly the parsed cache value — which is itself absent when the
cached JSON is a falsy value such as `null`. -/
theorem from_cache_flag_implies_parsed_cache (net : NetResult) (cache : CacheState)
    (h : (get_schedule_data net cache).1.2 = true) :
    net = NetResult.err ∧
      ∃ v, cache = CacheState.stored v ∧ (get_schedule_data net cache).1.1 = v := by
  cases net with
  | ok body => exact absurd h (by simp [get_schedule_data])
  | err =>
    cases cache with
    | absent => exact absurd h (by simp [get_schedule_data])
    | corrupt => exact absurd h (by simp [get_schedule_data])
    | stored v => exact ⟨rfl, v, rfl, rfl⟩

/-- Witness for the amended C10 at a concrete stored cache. -/
theorem from_cache_flag_implies_parsed_cache_witness :
    (get_schedule_data NetResult.err
        (CacheState.stored (some (ScheduleData.mk none [] [])))).1.2 = true ∧
    (NetResult.err = NetResult.err ∧
      ∃ v, CacheState.stored (some (ScheduleData.mk none [] [])) = CacheState.stored v ∧
        (get_schedule_data NetResult.err
            (CacheState.stored (some (ScheduleData.mk none [] [])))).1.1 = v) :=
  ⟨rfl, from_cache_flag_implies_parsed_cache NetResult.err
    (CacheState.stored (some (ScheduleData.mk none [] []))) rfl⟩
